import Mathlib

/-!
Verification of the per-connection session protocol engine of the `stereo`
music-collection backend (a shallow embedding of `src/stereo/server.py`,
`src/stereo/db.py` and `src/stereo/utils.py`).

Conventions of the embedding:
* Python dataclasses become Lean structures, keeping the source field names.
* The sqlite `tracks` table of a collection file is modelled as a `List Track`
  inside a `SqliteDb` record (column list, primary-key columns, rows); the
  filesystem of collection files is an association list `World`.
* Coroutines are modelled by pure functions from their inputs (the provider
  stream, the inbound frames, the queue arrivals) to the list of events they
  enqueue; suspension/cancellation points are made explicit where a claim
  needs them (the search job takes an optional cancellation point).
* Dates are carried as their ISO-8601 strings, which is exactly how the
  session engine and the store serialise them (`Track.to_db_row`).
-/

namespace Stereo

/-- `stereo.lib.Track` (pydantic model): the domain entity.  Field names and
defaults follow the source; `date` fields are carried as ISO strings. -/
structure Track where
  yt_id : String
  bp_id : Option Int := none
  mb_id : Option String := none
  title : String
  mix_name : Option String := none
  artists : List String
  release_date : Option String := none
  label : Option String := none
  album : Option String := none
  length : Option Int := none
  bpm : Option Int := none
  genre : Option String := none
  key : Option String := none
  mood : Option String := none
  rating : Option Int := none
  play_count : Int := 0
  last_played : Option String := none
  deriving DecidableEq

/-- `stereo.lib.Collection`: a storage location plus a cached track count. -/
structure Collection where
  path : String
  size : Nat
  deriving DecidableEq

/-- Severity tag of `MsgNotification` (`Literal["info","warn","warning","error"]`). -/
inductive NotifKind
  | info
  | warn
  | warning
  | error
  deriving DecidableEq

/-- Server→client events (`stereo.message.MsgServer`), restricted to the
variants produced by the handlers embedded here. -/
inductive MsgServer
  | heartbeat (timestamp : Int)
  | notification (message : String) (kind : NotifKind)
  | searchResult (query_id : Int) (track : Track)
  | searchComplete (query_id : Int)
  | collectionInfo (id : Option Int) (collection : Option Collection)
      (error_message : Option String) (path_completions : Option (List String))
  | trackUpdate (track : Track)
  | reloadTracks
  | rows (id : Int) (rows : List Track) (last_row : Option Nat)
  deriving DecidableEq

/-- Kind of a search command (`MsgSearch.kind`). -/
inductive SearchKind
  | fuzzy
  | byArtist
  | byLabel
  deriving DecidableEq

/-- The ephemeral search job installed in `SessionState.search_task`. -/
structure SearchJob where
  kind : SearchKind
  query : String
  query_id : Int
  limit : Nat
  deriving DecidableEq

/-- A value stored in (or compared against) a sqlite column. -/
inductive SqlValue
  | null
  | int (n : Int)
  | text (s : String)
  deriving DecidableEq

/-- `stereo.message.FilterModelItem` (the `filter` payload is `Any`; it is
carried here as a `SqlValue`, `null` standing for Python `None`). -/
structure FilterModelItem where
  filterType : String
  type : String
  filter : SqlValue := .null
  deriving DecidableEq

/-- `stereo.message.CombinedFilterModelItem`: an AND/OR combination. -/
structure CombinedFilterModelItem where
  filterType : String
  operator : String
  conditions : List FilterModelItem
  deriving DecidableEq

/-- One entry of the `filterModel` dict: either a plain item or a combined one. -/
inductive FilterEntry
  | single (item : FilterModelItem)
  | combined (item : CombinedFilterModelItem)
  deriving DecidableEq

/-- The `filterModel` dict (field name → filter entry), in insertion order. -/
abbrev FilterModel := List (String × FilterEntry)

/-- `stereo.message.SortModelItem`. -/
structure SortModelItem where
  colId : String
  sort : String
  type : Option String := none
  deriving DecidableEq

/-- Client→server commands (`stereo.message.MsgClient`), restricted to the
variants whose handlers are embedded here. -/
inductive MsgClient
  | heartbeat (timestamp : Int)
  | deleteTracks (ids : List String)
  | search (query : String) (query_id : Int) (limit : Nat) (kind : SearchKind)
  | searchCancelAll
  | getRows (id : Int) (startRow endRow : Nat)
      (sortModel : List SortModelItem) (filterModel : FilterModel)
  | addTrack (track : Track) (overwrite_existing : Bool)
  | setCollection (id : Int) (path : String)
  | importFrom (path : String) (keep_user_data : Bool)
  deriving DecidableEq

/-! ## The search job (`server.py::search_fuzzy`, lines 146-160)

The Discovery Provider's lazy sequence is a `ProviderStream`: it yields
tracks one by one and finally either ends normally or raises.  Cancellation
is modelled by an optional count of suspension points after which
`CancelledError` is delivered (each yielded item passes one suspension
point); `CancelledError` is *not* an `Exception` in Python ≥3.8, so it skips
the `except Exception` branch and runs only the `finally` block. -/

inductive ProviderStream
  | nil
  | fault (msg : String)
  | yield (t : Track) (rest : ProviderStream)
  deriving DecidableEq

/-- The loop body of `search_fuzzy`: `i` is the running result counter, the
`Option Nat` the remaining suspension points before cancellation. -/
def searchFuzzyLoop (query_id : Int) (limit : Nat) :
    ProviderStream → Nat → Option Nat → List MsgServer
  | _, _, some 0 => [.searchComplete query_id]
  | .nil, _, _ => [.searchComplete query_id]
  | .fault m, _, _ =>
      [.notification ("Search failed with exception: " ++ m) .error,
       .searchComplete query_id]
  | .yield t rest, i, c =>
      .searchResult query_id t ::
        (if limit ≤ i + 1 then [.searchComplete query_id]
         else searchFuzzyLoop query_id limit rest (i + 1) (c.map (· - 1)))

/-- `server.py::search_fuzzy(query, query_id, limit)` run against a provider
stream: the full list of events the job enqueues on `q_tx` (the error
notification of the `except` branch included; `notify_client` enqueues a
`MsgNotification` with kind `error`).  `search_by_artist` and
`search_by_label` (lines 162-192) are verbatim copies modulo the provider
call and share this embedding. -/
def search_fuzzy (stream : ProviderStream) (query_id : Int) (limit : Nat)
    (cancelAfter : Option Nat) : List MsgServer :=
  searchFuzzyLoop query_id limit stream 0 cancelAfter

/-- Specification-side characterisation of one job run: the tracks actually
forwarded and the fault message, if the fault was reached. -/
def searchTaken (limit : Nat) :
    ProviderStream → Nat → Option Nat → List Track × Option String
  | _, _, some 0 => ([], none)
  | .nil, _, _ => ([], none)
  | .fault m, _, _ => ([], some m)
  | .yield t rest, i, c =>
      if limit ≤ i + 1 then ([t], none)
      else
        let r := searchTaken limit rest (i + 1) (c.map (· - 1))
        (t :: r.1, r.2)

/-- Events of a fault, as a list (empty when no fault was reached). -/
def faultEvents : Option String → List MsgServer
  | some m => [.notification ("Search failed with exception: " ++ m) .error]
  | none => []

theorem searchFuzzyLoop_eq (query_id : Int) (limit : Nat) :
    ∀ (s : ProviderStream) (i : Nat) (c : Option Nat),
      searchFuzzyLoop query_id limit s i c =
        ((searchTaken limit s i c).1.map (MsgServer.searchResult query_id))
          ++ faultEvents (searchTaken limit s i c).2
          ++ [MsgServer.searchComplete query_id] := by
  intro s
  induction s with
  | nil =>
      intro i c
      match c with
      | some 0 => rfl
      | some (n + 1) => rfl
      | none => rfl
  | fault m =>
      intro i c
      match c with
      | some 0 => rfl
      | some (n + 1) => rfl
      | none => rfl
  | yield t rest ih =>
      intro i c
      match c with
      | some 0 => rfl
      | some (n + 1) =>
          simp only [searchFuzzyLoop, searchTaken]
          by_cases h : limit ≤ i + 1
          · simp [h, faultEvents]
          · simp only [h, if_false, ih]
            simp [faultEvents]
      | none =>
          simp only [searchFuzzyLoop, searchTaken]
          by_cases h : limit ≤ i + 1
          · simp [h, faultEvents]
          · simp only [h, if_false, ih]
            simp [faultEvents]

theorem searchTaken_length_le (limit : Nat) :
    ∀ (s : ProviderStream) (i : Nat) (c : Option Nat), i < limit →
      (searchTaken limit s i c).1.length ≤ limit - i := by
  intro s
  induction s with
  | nil =>
      intro i c _
      match c with
      | some 0 => simp [searchTaken]
      | some (n + 1) => simp [searchTaken]
      | none => simp [searchTaken]
  | fault m =>
      intro i c _
      match c with
      | some 0 => simp [searchTaken]
      | some (n + 1) => simp [searchTaken]
      | none => simp [searchTaken]
  | yield t rest ih =>
      intro i c hi
      have hbase : ∀ r : List Track × Option String,
          r.1.length ≤ limit - (i + 1) →
          ((t :: r.1 : List Track).length ≤ limit - i) := by
        intro r hr
        simp only [List.length_cons]
        omega
      match c with
      | some 0 => simp [searchTaken]
      | some (n + 1) =>
          simp only [searchTaken]
          by_cases h : limit ≤ i + 1
          · simp only [h, if_true, List.length_cons, List.length_nil]
            omega
          · simp only [h, if_false]
            exact hbase _ (ih (i + 1) _ (by omega))
      | none =>
          simp only [searchTaken]
          by_cases h : limit ≤ i + 1
          · simp only [h, if_true, List.length_cons, List.length_nil]
            omega
          · simp only [h, if_false]
            exact hbase _ (ih (i + 1) _ (by omega))

theorem searchTaken_length_le_cancel (limit : Nat) :
    ∀ (s : ProviderStream) (i k : Nat),
      (searchTaken limit s i (some k)).1.length ≤ k := by
  intro s
  induction s with
  | nil =>
      intro i k
      match k with
      | 0 => simp [searchTaken]
      | k + 1 => simp [searchTaken]
  | fault m =>
      intro i k
      match k with
      | 0 => simp [searchTaken]
      | k + 1 => simp [searchTaken]
  | yield t rest ih =>
      intro i k
      match k with
      | 0 => simp [searchTaken]
      | k + 1 =>
          simp only [searchTaken]
          by_cases h : limit ≤ i + 1
          · simp [h]
          · have hmap : Option.map (fun x => x - 1) (some (k + 1)) = some k := rfl
            simp only [h, if_false, hmap, List.length_cons]
            have := ih (i + 1) k
            omega

/-- A concrete track used by the closed witness/counterexample theorems. -/
def demoTrack : Track :=
  { yt_id := "yt0", title := "Demo", artists := ["A"] }

/-- Number of search-result events tagged with `query_id` in an event list. -/
def countResults (query_id : Int) (evs : List MsgServer) : Nat :=
  (evs.filter (fun e =>
    match e with
    | .searchResult q _ => decide (q = query_id)
    | _ => false)).length

/-- Number of search-complete events carrying `query_id` in an event list. -/
def countCompletes (query_id : Int) (evs : List MsgServer) : Nat :=
  (evs.filter (fun e => decide (e = MsgServer.searchComplete query_id))).length

theorem countResults_map_self (query_id : Int) (ts : List Track) :
    countResults query_id (ts.map (MsgServer.searchResult query_id)) = ts.length := by
  induction ts with
  | nil => rfl
  | cons t rest ih =>
      simp only [countResults] at ih ⊢
      simp [List.filter_cons, ih]

theorem countResults_append (query_id : Int) (a b : List MsgServer) :
    countResults query_id (a ++ b) = countResults query_id a + countResults query_id b := by
  simp [countResults, List.filter_append]

theorem countCompletes_append (query_id : Int) (a b : List MsgServer) :
    countCompletes query_id (a ++ b) = countCompletes query_id a + countCompletes query_id b := by
  simp [countCompletes, List.filter_append]

theorem countResults_faultEvents (query_id : Int) (f : Option String) :
    countResults query_id (faultEvents f) = 0 := by
  cases f <;> rfl

theorem countCompletes_faultEvents (query_id : Int) (f : Option String) :
    countCompletes query_id (faultEvents f) = 0 := by
  cases f <;> rfl

theorem countCompletes_map_results (query_id : Int) (ts : List Track) :
    countCompletes query_id (ts.map (MsgServer.searchResult query_id)) = 0 := by
  induction ts with
  | nil => rfl
  | cons t rest ih =>
      simp only [countCompletes] at ih ⊢
      simp [List.filter_cons, ih]

/-- C1 (amended: `limit ≥ 1`): a search job run against any provider stream,
in any outcome (stream ends, limit reached, cancelled at any suspension
point, or fault mid-stream), enqueues the result events for the tracks it
took — at most `limit` of them, tagged with `query_id` — then the error
notification exactly when the fault was reached (`faultEvents`), and then
exactly one search-complete event carrying `query_id`, which is the last
event; in particular the fault notification always precedes the completion
event. -/
theorem C1_search_job_events (s : ProviderStream) (query_id : Int) (limit : Nat)
    (cancelAfter : Option Nat) (hl : 1 ≤ limit) :
    search_fuzzy s query_id limit cancelAfter =
        ((searchTaken limit s 0 cancelAfter).1.map (MsgServer.searchResult query_id))
          ++ faultEvents (searchTaken limit s 0 cancelAfter).2
          ++ [MsgServer.searchComplete query_id]
      ∧ countResults query_id (search_fuzzy s query_id limit cancelAfter) ≤ limit
      ∧ countCompletes query_id (search_fuzzy s query_id limit cancelAfter) = 1
      ∧ (search_fuzzy s query_id limit cancelAfter).getLast?
          = some (MsgServer.searchComplete query_id) := by
  have hshape := searchFuzzyLoop_eq query_id limit s 0 cancelAfter
  have hlen : (searchTaken limit s 0 cancelAfter).1.length ≤ limit := by
    have := searchTaken_length_le limit s 0 cancelAfter (by omega)
    omega
  refine ⟨hshape, ?_, ?_, ?_⟩
  · show countResults query_id (searchFuzzyLoop query_id limit s 0 cancelAfter) ≤ limit
    rw [hshape, countResults_append, countResults_append,
      countResults_map_self, countResults_faultEvents]
    have hone : countResults query_id [MsgServer.searchComplete query_id] = 0 := rfl
    rw [hone]
    omega
  · show countCompletes query_id (searchFuzzyLoop query_id limit s 0 cancelAfter) = 1
    rw [hshape, countCompletes_append, countCompletes_append,
      countCompletes_map_results, countCompletes_faultEvents]
    simp [countCompletes]
  · show (searchFuzzyLoop query_id limit s 0 cancelAfter).getLast? = _
    rw [hshape]
    exact List.getLast?_concat _

/-- Witness for C1: the theorem applied to a one-track stream with
`query_id = 1`, `limit = 2` and no cancellation. -/
theorem C1_search_job_events_witness :
    1 ≤ 2
    ∧ (search_fuzzy (.yield demoTrack .nil) 1 2 none =
          ((searchTaken 2 (.yield demoTrack .nil) 0 none).1.map (MsgServer.searchResult 1))
            ++ faultEvents (searchTaken 2 (.yield demoTrack .nil) 0 none).2
            ++ [MsgServer.searchComplete 1]
        ∧ countResults 1 (search_fuzzy (.yield demoTrack .nil) 1 2 none) ≤ 2
        ∧ countCompletes 1 (search_fuzzy (.yield demoTrack .nil) 1 2 none) = 1
        ∧ (search_fuzzy (.yield demoTrack .nil) 1 2 none).getLast?
            = some (MsgServer.searchComplete 1)) :=
  ⟨by decide, C1_search_job_events (.yield demoTrack .nil) 1 2 none (by decide)⟩

/-- C1 counterexample: with `limit = 0` (a value the wire format allows) the
job still forwards the first track before the `i >= limit` check runs, so
"at most `limit` search-result events" fails: on a one-track stream one
result event is enqueued although the limit is zero. -/
theorem C1_counterexample :
    ¬ countResults 7 (search_fuzzy (.yield demoTrack .nil) 7 0 none) ≤ 0 := by
  decide

/-! ## The outbound batcher (`server.py::send_loop`, lines 431-446)

The loop's interaction with `q_tx` is a sequence of arrivals: either the
next event (the `await wait_for(q_tx.get(), max_delay)` returned a message)
or a `TimeoutError`.  Each arrival runs one body iteration: append the
event to the buffer / set the timeout flag, then flush (write and clear)
when the buffer reached `max_chunk_size` or a timeout was seen while the
buffer is non-empty. -/

inductive BatchInput (α : Type)
  | ev (m : α)
  | timeout
  deriving DecidableEq

/-- The batcher's loop variables: `buffer` and the `timeout` flag. -/
structure BatchState (α : Type) where
  buffer : List α
  timeout : Bool
  deriving DecidableEq

/-- One iteration of the `while True` body of `send_loop`: returns the new
loop state and the flush performed (as a zero- or one-element list of
chunks). -/
def sendStep {α : Type} (max_chunk_size : Nat) (st : BatchState α)
    (inp : BatchInput α) : BatchState α × List (List α) :=
  let st1 : BatchState α :=
    match inp with
    | .ev m => { st with buffer := st.buffer ++ [m] }
    | .timeout => { st with timeout := true }
  if max_chunk_size ≤ st1.buffer.length ∨ (st1.timeout = true ∧ st1.buffer.isEmpty = false) then
    ({ buffer := [], timeout := false }, [st1.buffer])
  else (st1, [])

def sendLoopFrom {α : Type} (max_chunk_size : Nat) :
    BatchState α → List (BatchInput α) → List (List α) × BatchState α
  | st, [] => ([], st)
  | st, inp :: rest =>
      let p := sendStep max_chunk_size st inp
      let q := sendLoopFrom max_chunk_size p.1 rest
      (p.2 ++ q.1, q.2)

/-- `send_loop(max_chunk_size, max_delay)` run over a finite arrival
sequence, from the initial state (`buffer = []`, `timeout = False`):
the list of flushed chunks, in flush order, plus the final loop state. -/
def send_loop {α : Type} (max_chunk_size : Nat) (inputs : List (BatchInput α)) :
    List (List α) × BatchState α :=
  sendLoopFrom max_chunk_size ⟨[], false⟩ inputs

/-- The events carried by an arrival sequence, in arrival order. -/
def batchEvents {α : Type} : List (BatchInput α) → List α
  | [] => []
  | .ev m :: rest => m :: batchEvents rest
  | .timeout :: rest => batchEvents rest

theorem sendLoopFrom_order {α : Type} (mcs : Nat) :
    ∀ (inputs : List (BatchInput α)) (st : BatchState α),
      (sendLoopFrom mcs st inputs).1.flatten ++ (sendLoopFrom mcs st inputs).2.buffer
        = st.buffer ++ batchEvents inputs := by
  intro inputs
  induction inputs with
  | nil => intro st; simp [sendLoopFrom, batchEvents]
  | cons inp rest ih =>
      intro st
      cases inp with
      | ev m =>
          simp only [sendLoopFrom, sendStep, batchEvents]
          split
          · simp [ih]
          · simp only [List.nil_append, List.flatten]
            rw [ih]
            simp
      | timeout =>
          simp only [sendLoopFrom, sendStep, batchEvents]
          split
          · simp [ih]
          · simp only [List.nil_append, List.flatten]
            rw [ih]

set_option maxRecDepth 100000 in
/-- C3: (a) with `max_chunk_size = 100`, enqueuing 250 events instantly
(then the pending-buffer timeout) flushes chunks of sizes `[100, 100, 50]`,
carrying the 250 events in order; (b) for every arrival sequence, the
concatenation of the flushed chunks followed by the residual buffer is
exactly the enqueued events in order — no reordering within or across flush
boundaries. -/
theorem C3_batcher_flushes :
    ((send_loop 100 (((List.range 250).map BatchInput.ev) ++ [BatchInput.timeout])).1.map
        List.length = [100, 100, 50]
      ∧ (send_loop 100 (((List.range 250).map BatchInput.ev)
          ++ [BatchInput.timeout])).1.flatten = List.range 250)
    ∧ ∀ (α : Type) (mcs : Nat) (inputs : List (BatchInput α)),
        (send_loop mcs inputs).1.flatten ++ (send_loop mcs inputs).2.buffer
          = batchEvents inputs := by
  refine ⟨⟨by decide, by decide⟩, ?_⟩
  intro α mcs inputs
  have h := sendLoopFrom_order mcs inputs ⟨[], false⟩
  simpa [send_loop] using h

/-! ## The receive loop (`server.py::recv_loop`, lines 448-462)

An inbound interaction is a sequence of frames; each frame either decodes
(`decode_client_msg` returns a command) or is malformed
(`decode_client_msg`, i.e. pydantic `TypeAdapter.validate_json`, raises
`ValidationError` on malformed JSON, an unknown `type` tag, or a payload
schema mismatch — both the `ValidationError` and the generic `Exception`
arms just log and continue), or the peer disconnected
(`WebSocketDisconnect` breaks the loop). -/

inductive InFrame
  | frame (decoded : Option MsgClient)
  | disconnect
  deriving DecidableEq

/-- `recv_loop` as the list of commands it enqueues on `q_rx`, in order. -/
def recv_loop : List InFrame → List MsgClient
  | [] => []
  | .disconnect :: _ => []
  | .frame (some m) :: rest => m :: recv_loop rest
  | .frame none :: rest => recv_loop rest

/-- The command of a frame, when it decodes. -/
def framePayload : InFrame → Option MsgClient
  | .frame (some m) => some m
  | .frame none => none
  | .disconnect => none

/-- Whether a frame is the peer's disconnect. -/
def isDisconnectFrame : InFrame → Bool
  | .disconnect => true
  | .frame _ => false

/-- C5: a malformed inbound frame never terminates the session and is not
enqueued for dispatch — (a) the commands enqueued on the dispatch queue are
exactly the successfully decoded frames before the first disconnect, so
malformed frames are dropped and only a disconnect ends the loop; (b)
dropping is local: the loop's output after a malformed frame equals its
output without it; (c) the next valid command after a malformed frame is
still dispatched. -/
theorem C5_malformed_frame_nonfatal :
    (∀ fs : List InFrame,
        recv_loop fs
          = (fs.takeWhile (fun f => !isDisconnectFrame f)).filterMap framePayload)
    ∧ (∀ rest : List InFrame, recv_loop (InFrame.frame none :: rest) = recv_loop rest)
    ∧ (∀ (m : MsgClient) (rest : List InFrame),
        recv_loop (InFrame.frame none :: InFrame.frame (some m) :: rest)
          = m :: recv_loop rest) := by
  refine ⟨?_, ?_, ?_⟩
  · intro fs
    induction fs with
    | nil => rfl
    | cons f rest ih =>
        cases f with
        | disconnect => rfl
        | frame d =>
            cases d with
            | some m =>
                simp [recv_loop, List.takeWhile, isDisconnectFrame, framePayload, ih]
            | none =>
                simp [recv_loop, List.takeWhile, isDisconnectFrame, framePayload, ih]
  · intro rest; rfl
  · intro m rest; rfl

/-! ## The Catalog Store (`db.py`)

A collection file is a `SqliteDb`: the column names and primary-key columns
of its `tracks` table plus its rows.  The filesystem of collection files is
a `World` (path → db). -/

/-- The columns of the `tracks` table created by `init_db`, equally the keys
of `Track.model_fields` used by `validate_db_schema`. -/
def expectedColumns : List String :=
  ["yt_id", "bp_id", "mb_id", "title", "mix_name", "artists", "release_date",
   "label", "album", "length", "bpm", "genre", "key", "mood", "rating",
   "play_count", "last_played"]

structure SqliteDb where
  cols : List String
  pkCols : List String
  tracks : List Track
  deriving DecidableEq

/-- `db.py::validate_db_schema`: `False` when the file is missing or not a
sqlite database (`none`), when `PRAGMA table_info(tracks)` is empty, when
some expected column is absent, or when `yt_id` is not a primary-key
column. -/
def validate_db_schema (file : Option SqliteDb) : Bool :=
  match file with
  | none => false
  | some db =>
      !db.cols.isEmpty && expectedColumns.all (fun c => db.cols.contains c)
        && db.pkCols.contains "yt_id"

abbrev World := List (String × SqliteDb)

def World.lookup (w : World) (p : String) : Option SqliteDb :=
  (w.find? (fun e => e.1 == p)).map (·.2)

def World.set (w : World) (p : String) (d : SqliteDb) : World :=
  if w.any (fun e => e.1 == p) then
    w.map (fun e => if e.1 == p then (p, d) else e)
  else w ++ [(p, d)]

/-- A freshly initialised collection db (`init_db`). -/
def stdDb (tracks : List Track) : SqliteDb :=
  ⟨expectedColumns, ["yt_id"], tracks⟩

/-- The rows of the `tracks` table at `p` (empty for a fresh file, as
`aiosqlite.connect` creates one). -/
def tracksAt (w : World) (p : String) : List Track :=
  match w.lookup p with
  | some d => d.tracks
  | none => []

def setTracksAt (w : World) (p : String) (ts : List Track) : World :=
  match w.lookup p with
  | some d => w.set p { d with tracks := ts }
  | none => w.set p (stdDb ts)

theorem lookup_set_map (w : World) (p : String) (d : SqliteDb) :
    World.lookup (w.map (fun e => if e.1 == p then (p, d) else e)) p
      = if w.any (fun e => e.1 == p) then some d else none := by
  induction w with
  | nil => rfl
  | cons e rest ih =>
      by_cases h : e.1 = p
      · simp [World.lookup, List.find?, h]
      · have hb : (e.1 == p) = false := by simp [h]
        simp only [List.map_cons, List.any_cons, hb, Bool.false_or, if_neg,
          Bool.not_eq_true]
        simp only [World.lookup, List.find?, hb] at ih ⊢
        exact ih

theorem lookup_append_single (w : World) (p : String) (d : SqliteDb)
    (h : w.any (fun e => e.1 == p) = false) :
    World.lookup (w ++ [(p, d)]) p = some d := by
  induction w with
  | nil => simp [World.lookup, List.find?]
  | cons e rest ih =>
      simp only [List.any_cons, Bool.or_eq_false_iff] at h
      simp only [List.cons_append, World.lookup, List.find?, h.1]
      exact ih h.2

theorem World.lookup_set (w : World) (p : String) (d : SqliteDb) :
    (World.set w p d).lookup p = some d := by
  unfold World.set
  by_cases h : w.any (fun e => e.1 == p) = true
  · rw [if_pos h, lookup_set_map, if_pos h]
  · rw [if_neg h]
    exact lookup_append_single w p d (by revert h; cases w.any (fun e => e.1 == p) <;> simp)

theorem tracksAt_setTracksAt (w : World) (p : String) (ts : List Track) :
    tracksAt (setTracksAt w p ts) p = ts := by
  unfold setTracksAt tracksAt
  cases World.lookup w p with
  | none => rw [World.lookup_set]; rfl
  | some d => rw [World.lookup_set]

/-- `db.py::insert_track`: `INSERT OR IGNORE` keeps the table unchanged on a
`yt_id` conflict; `INSERT OR REPLACE` deletes the conflicting row and
appends the new one. -/
def insert_track (rows : List Track) (track : Track) (ignore_if_exists : Bool) :
    List Track :=
  if ignore_if_exists then
    if rows.any (fun r => r.yt_id == track.yt_id) then rows else rows ++ [track]
  else
    rows.filter (fun r => !(r.yt_id == track.yt_id)) ++ [track]

/-! ## Filters, sorting and row queries (`db.py::get_rows_2`, `count_rows`) -/

def optTextVal : Option String → SqlValue
  | none => .null
  | some s => .text s

def optIntVal : Option Int → SqlValue
  | none => .null
  | some n => .int n

def jsonStr (s : String) : String := "\"" ++ s ++ "\""

/-- `json.dumps` of the artists list (`Track.to_db_row`; escaping of quotes
inside names is not modelled). -/
def artistsJson (l : List String) : String :=
  "[" ++ String.intercalate ", " (l.map jsonStr) ++ "]"

/-- The sql value stored in a column of a track row (`Track.to_db_row`);
unknown column names do not occur in the embedded queries. -/
def getCol (t : Track) : String → SqlValue
  | "yt_id" => .text t.yt_id
  | "bp_id" => optIntVal t.bp_id
  | "mb_id" => optTextVal t.mb_id
  | "title" => .text t.title
  | "mix_name" => optTextVal t.mix_name
  | "artists" => .text (artistsJson t.artists)
  | "release_date" => optTextVal t.release_date
  | "label" => optTextVal t.label
  | "album" => optTextVal t.album
  | "length" => optIntVal t.length
  | "bpm" => optIntVal t.bpm
  | "genre" => optTextVal t.genre
  | "key" => optTextVal t.key
  | "mood" => optTextVal t.mood
  | "rating" => optIntVal t.rating
  | "play_count" => .int t.play_count
  | "last_played" => optTextVal t.last_played
  | _ => .null

/-- Python `str()` of a filter payload (used in the `f"%{item.filter}%"`
parameter). -/
def pyStr : SqlValue → String
  | .null => "None"
  | .int n => toString n
  | .text s => s

def startsWithChars : List Char → List Char → Bool
  | [], _ => true
  | _ :: _, [] => false
  | a :: as, b :: bs => a == b && startsWithChars as bs

def hasSubChars (needle : List Char) : List Char → Bool
  | [] => needle.isEmpty
  | c :: tl => startsWithChars needle (c :: tl) || hasSubChars needle tl

/-- `str.startswith` via character lists (the bytewise primitive does not
reduce in the kernel). -/
def strStartsWith (s pre : String) : Bool := startsWithChars pre.toList s.toList

/-- `str.endswith` via character lists. -/
def strEndsWith (s suf : String) : Bool :=
  startsWithChars suf.toList.reverse s.toList.reverse

/-- Drop the first `n` characters. -/
def strDrop (s : String) (n : Nat) : String := String.mk (s.toList.drop n)

/-- Split on a separator character (`str.split("/")` semantics). -/
def splitChars (sep : Char) : List Char → List (List Char)
  | [] => [[]]
  | c :: rest =>
      let r := splitChars sep rest
      if c == sep then [] :: r
      else
        match r with
        | h :: t => (c :: h) :: t
        | [] => [[c]]

def splitOnSlash (s : String) : List String :=
  (splitChars (Char.ofNat 47) s.toList).map String.mk

/-- SQL `col LIKE '%x%'`: ASCII-case-insensitive substring match; `NULL`
columns never match. -/
def likeCont (col : SqlValue) (f : SqlValue) : Bool :=
  match col with
  | .null => false
  | c =>
      hasSubChars ((pyStr f).toList.map Char.toLower)
        ((pyStr c).toList.map Char.toLower)

/-- SQL `col = ?`: `NULL` never compares equal; distinct storage classes
compare unequal. -/
def sqlEq : SqlValue → SqlValue → Bool
  | .null, _ => false
  | _, .null => false
  | .int a, .int b => a == b
  | .text a, .text b => a == b
  | _, _ => false

/-- The WHERE clause `get_rows_2` adds for one plain filter item (`none`
when the item's type matches no branch and no clause is added). -/
def pageClause (field : String) (item : FilterModelItem) (t : Track) : Option Bool :=
  if item.filterType = "text" ∧ item.type = "contains" then
    some (likeCont (getCol t field) item.filter)
  else if item.type = "equals" then
    some (sqlEq (getCol t field) item.filter)
  else if item.type = "blank" then
    some (decide (getCol t field = .null))
  else if item.type = "notBlank" then
    some (!decide (getCol t field = .null))
  else none

/-- Row predicate of `get_rows_2`'s WHERE clauses: the conjunction over the
filter-model entries; `CombinedFilterModelItem` entries are skipped by the
`isinstance(item, FilterModelItem)` guard and contribute no clause. -/
def matchesPage (filterModel : FilterModel) (t : Track) : Bool :=
  filterModel.all fun e =>
    match e.2 with
    | .combined _ => true
    | .single item =>
        match pageClause e.1 item t with
        | some b => b
        | none => true

/-- The WHERE clause `count_rows` adds for one plain filter item: only the
`contains` and `equals` branches exist there. -/
def countClause (field : String) (item : FilterModelItem) (t : Track) : Option Bool :=
  if item.filterType = "text" ∧ item.type = "contains" then
    some (likeCont (getCol t field) item.filter)
  else if item.type = "equals" then
    some (sqlEq (getCol t field) item.filter)
  else none

/-- Row predicate of `count_rows`'s WHERE clauses. -/
def matchesCount (filterModel : FilterModel) (t : Track) : Bool :=
  filterModel.all fun e =>
    match e.2 with
    | .combined _ => true
    | .single item =>
        match countClause e.1 item t with
        | some b => b
        | none => true

def sqlValRank : SqlValue → Nat
  | .null => 0
  | .int _ => 1
  | .text _ => 2

/-- sqlite ordering: `NULL` before numbers before text; values of one
storage class by their own order. -/
def sqlValCmp : SqlValue → SqlValue → Ordering
  | .null, .null => .eq
  | .int a, .int b => compare a b
  | .text a, .text b => compare a b
  | a, b => compare (sqlValRank a) (sqlValRank b)

/-- `ORDER BY` comparison over the sort model ("asc" ascending, anything
else `DESC`), lexicographically over the sort items. -/
def sortCmp (sortModel : List SortModelItem) (a b : Track) : Ordering :=
  match sortModel with
  | [] => .eq
  | item :: rest =>
      let c := sqlValCmp (getCol a item.colId) (getCol b item.colId)
      let c := if item.sort = "asc" then c else c.swap
      match c with
      | .eq => sortCmp rest a b
      | o => o

def insertByCmp (le : Track → Track → Bool) (t : Track) : List Track → List Track
  | [] => [t]
  | h :: tl => if le t h then t :: h :: tl else h :: insertByCmp le t tl

/-- Sorting of the result rows per the sort model (tie order among equal
keys is unspecified in SQL; a deterministic insertion sort stands in). -/
def sortTracks (sortModel : List SortModelItem) (rows : List Track) : List Track :=
  rows.foldr (insertByCmp (fun a b => !(sortCmp sortModel a b == Ordering.gt))) []

/-- `db.py::get_rows_2`: WHERE (plain items only), ORDER BY the sort model,
then `LIMIT endRow - startRow OFFSET startRow`. -/
def get_rows_2 (rows : List Track) (startRow endRow : Nat)
    (sortModel : List SortModelItem) (filterModel : FilterModel) : List Track :=
  ((sortTracks sortModel (rows.filter (matchesPage filterModel))).drop startRow).take
    (endRow - startRow)

/-- `db.py::count_rows`: `SELECT COUNT(*)` under the count WHERE clauses. -/
def count_rows (rows : List Track) (filterModel : FilterModel) : Nat :=
  (rows.filter (matchesCount filterModel)).length

theorem count_rows_nil (rows : List Track) : count_rows rows [] = rows.length := by
  simp [count_rows, matchesCount]

/-! ## Path completions (`utils.py::get_path_completions`) and the
session's external environment -/

/-- `Path(prefix).expanduser()`: a leading `~` component becomes the home
directory. -/
def expanduser (home p : String) : String :=
  if p = "~" then home
  else if strStartsWith p "~/" then home ++ strDrop p 1
  else p

/-- `pathlib` string normalisation: trailing separators are dropped (the
root keeps its one); interior duplicate separators are not modelled. -/
def normPath (p : String) : String :=
  let cs := (p.toList.reverse.dropWhile (fun c => c == '/')).reverse
  if cs.isEmpty then (if p.toList.isEmpty then "." else "/") else String.mk cs

/-- `Path(p).name`. -/
def pathName (p : String) : String :=
  let q := normPath p
  if q = "/" then "" else ((splitOnSlash q).getLast?.getD "")

/-- `Path(p).parent` (as a string). -/
def pathParent (p : String) : String :=
  let q := normPath p
  if q = "/" then "/"
  else
    match (splitOnSlash q).dropLast with
    | [] => "."
    | [""] => "/"
    | parts => String.intercalate "/" parts

/-- `str(parent / name)`. -/
def joinPath (parent name : String) : String :=
  if parent = "/" then "/" ++ name
  else if parent = "." then name
  else parent ++ "/" ++ name

/-- The session's external environment: the home directory and directory
listing used by path completion, and the network used by `download_file`
(`.error msg` models a raised exception, `.ok db` the fetched file's
content). -/
structure Env where
  home : String
  fsDirs : List (String × List String)
  download : String → Except String SqliteDb

/-- `parent.exists() and parent.is_dir()` plus `parent.iterdir()`: the entry
names of an existing directory. -/
def Env.lookupDir (env : Env) (p : String) : Option (List String) :=
  (env.fsDirs.find? (fun e => e.1 == p)).map (·.2)

/-- `utils.py::get_path_completions` over the filesystem model: entries of
the parent directory whose names start with the partial last component,
returned as full paths. -/
def get_path_completions (env : Env) (pre : String) : List String :=
  let pathObj := normPath (expanduser env.home pre)
  let pq :=
    if strEndsWith pre "/" = true ∨ pre = "~" then (pathObj, "")
    else (pathParent pathObj, pathName pathObj)
  match env.lookupDir pq.1 with
  | none => []
  | some names =>
      (names.filter (fun n => strStartsWith n pq.2)).map (joinPath pq.1)

/-! ## Import (`db.py::import_from_db`) -/

/-- A Python value passed for `import_from_db`'s `cols` parameter.  The
parameter is declared with a list-of-column-names default, but the call
site in `server.py` (line 366/390) passes the message's boolean
`keep_user_data` positionally, so the embedding keeps the dynamic type. -/
inductive PyObj
  | bool (b : Bool)
  | strList (l : List String)
  deriving DecidableEq

inductive PyError
  | typeError (msg : String)
  | valueError (msg : String)
  deriving DecidableEq

/-- `for col in cols:` — iterating a bool raises `TypeError`. -/
def pyIterStrings : PyObj → Except PyError (List String)
  | .bool _ => .error (.typeError "bool object is not iterable")
  | .strList l => .ok l

/-- The default of `import_from_db`'s `cols` parameter (note: the user
fields `rating`, `play_count`, `last_played` are absent from it). -/
def defaultImportCols : List String :=
  ["yt_id", "title", "mix_name", "artists", "bp_id", "mb_id", "release_date",
   "label", "bpm", "key", "album", "genre", "mood"]

/-- Column projection of `INSERT INTO main.tracks (cols) SELECT cols`:
fields outside the imported columns take the schema defaults (`NULL`, and
`0` for `play_count`; an absent `yt_id` becomes the empty string). -/
def projectTrack (cols : List String) (t : Track) : Track :=
  { yt_id := if cols.contains "yt_id" then t.yt_id else ""
    bp_id := if cols.contains "bp_id" then t.bp_id else none
    mb_id := if cols.contains "mb_id" then t.mb_id else none
    title := if cols.contains "title" then t.title else ""
    mix_name := if cols.contains "mix_name" then t.mix_name else none
    artists := if cols.contains "artists" then t.artists else []
    release_date := if cols.contains "release_date" then t.release_date else none
    label := if cols.contains "label" then t.label else none
    album := if cols.contains "album" then t.album else none
    length := if cols.contains "length" then t.length else none
    bpm := if cols.contains "bpm" then t.bpm else none
    genre := if cols.contains "genre" then t.genre else none
    key := if cols.contains "key" then t.key else none
    mood := if cols.contains "mood" then t.mood else none
    rating := if cols.contains "rating" then t.rating else none
    play_count := if cols.contains "play_count" then t.play_count else 0
    last_played := if cols.contains "last_played" then t.last_played else none }

/-- `INSERT OR IGNORE ... SELECT`: row-wise ignore-on-conflict insertion. -/
def insertIgnoreAll (target : List Track) (src : List Track) : List Track :=
  src.foldl (fun acc t => insert_track acc t true) target

/-- `db.py::import_from_db(ctx, source_db, cols)`: iterate `cols` (raising
`TypeError` when a bool was passed), check each against the target's
columns (`ValueError` otherwise), intersect with the source's columns, and
merge the source rows with `INSERT OR IGNORE` — existing target rows are
never overwritten. -/
def import_from_db (target : SqliteDb) (source : SqliteDb) (cols : PyObj) :
    Except PyError (List Track) := do
  let colList ← pyIterStrings cols
  if colList.all (fun c => target.cols.contains c) then
    let colsToImport := colList.filter (fun c => source.cols.contains c)
    if colsToImport.isEmpty then
      pure target.tracks
    else
      pure (insertIgnoreAll target.tracks (source.tracks.map (projectTrack colsToImport)))
  else
    throw (.valueError "column not in target table")

/-- Kind of an import source. -/
inductive SrcKind
  | file
  | url
  deriving DecidableEq

/-- `utils.py::is_file_or_url`: URL when the parsed scheme is http/https
(modelled for canonical `//`-authority URLs), file when the path is
absolute, else neither. -/
def is_file_or_url (s : String) : Option SrcKind :=
  if strStartsWith s "http://" || strStartsWith s "https://" then some .url
  else if strStartsWith s "/" then some .file
  else none

/-! ## The Command Dispatcher (`server.py::handle_client_msg`, lines 202-420)

A handler run is pure: given the session state and the world, it returns
the new state and world, the events enqueued on `q_tx`, the number of
`ev_state_change.set()` calls, and the actions performed on the search-task
slot.  A raised exception is an `Except.error` (caught one level up by
`handle_client_msg_loop`). -/

/-- `server.py::SessionState`. -/
structure SessionState where
  collection : Option Collection := none
  search_task : Option SearchJob := none
  deriving DecidableEq

/-- Actions on the per-session search-task slot.  `awaitTermination` is the
action of awaiting the task handle until the task has finished (it is part
of the action vocabulary of the claims; the source dispatcher never
performs it). -/
inductive TaskAction
  | cancel
  | awaitTermination
  | install (job : SearchJob)
  deriving DecidableEq

structure HandlerResult where
  state : SessionState
  world : World
  events : List MsgServer := []
  signals : Nat := 0
  taskActions : List TaskAction := []
  deriving DecidableEq

/-- `server.py::update_collection` (lines 194-200): when a collection is
selected, re-query its row count, refresh the cached size, enqueue one
collection-info event and set the state-change signal. -/
def update_collection (st : SessionState) (w : World) :
    SessionState × List MsgServer × Nat :=
  match st.collection with
  | some col =>
      let n := count_rows (tracksAt w col.path) []
      let col2 := { col with size := n }
      ({ st with collection := some col2 },
       [.collectionInfo none (some col2) none none], 1)
  | none => (st, [], 0)

/-- `server.py::handle_client_msg`, for the embedded command variants.
Commands needing a collection silently no-op without one (`ctx is None`). -/
def handle_client_msg (env : Env) (st : SessionState) (w : World) :
    MsgClient → Except PyError HandlerResult
  | .heartbeat ts => .ok { state := st, world := w, events := [.heartbeat ts] }
  | .deleteTracks ids =>
      match st.collection with
      | none => .ok { state := st, world := w }
      | some col =>
          let rows2 := (tracksAt w col.path).filter (fun r => !(ids.contains r.yt_id))
          let w2 := setTracksAt w col.path rows2
          let u := update_collection st w2
          .ok { state := u.1
                world := w2
                events := [.reloadTracks] ++ u.2.1
                signals := u.2.2 }
  | .searchCancelAll =>
      .ok { state := st
            world := w
            taskActions := if st.search_task.isSome then [.cancel] else [] }
  | .search query query_id limit kind =>
      let cancelActs := if st.search_task.isSome then [TaskAction.cancel] else []
      if query ≠ "" then
        let job : SearchJob := ⟨kind, query, query_id, limit⟩
        .ok { state := { st with search_task := some job }
              world := w
              taskActions := cancelActs ++ [.install job] }
      else
        .ok { state := st, world := w, taskActions := cancelActs }
  | .getRows id startRow endRow sortModel filterModel =>
      match st.collection with
      | none => .ok { state := st, world := w }
      | some col =>
          let rows := tracksAt w col.path
          let n := count_rows rows filterModel
          let page := get_rows_2 rows startRow endRow sortModel filterModel
          .ok { state := st, world := w, events := [.rows id page (some n)] }
  | .addTrack track overwrite_existing =>
      match st.collection with
      | none => .ok { state := st, world := w }
      | some col =>
          let rows2 := insert_track (tracksAt w col.path) track (!overwrite_existing)
          let w2 := setTracksAt w col.path rows2
          let u := update_collection st w2
          .ok { state := u.1
                world := w2
                events := [.trackUpdate track] ++ u.2.1
                signals := u.2.2 }
  | .setCollection id path =>
      if validate_db_schema (w.lookup path) then
        let n := count_rows (tracksAt w path) []
        let col : Collection := ⟨path, n⟩
        .ok { state := { st with collection := some col }
              world := w
              events := [.collectionInfo (some id) (some col) none none]
              signals := 1 }
      else
        .ok { state := { st with collection := none }
              world := w
              events := [.collectionInfo (some id) none (some "not a valid collection")
                (some (get_path_completions env path))]
              signals := 1 }
  | .importFrom path keep_user_data =>
      match is_file_or_url path with
      | some .file =>
          match st.collection with
          | none => .ok { state := st, world := w }
          | some col =>
              if !validate_db_schema (w.lookup path) then
                .ok { state := st
                      world := w
                      events := [.notification
                        ("Cannot import from invalid collection: " ++ path) .error] }
              else
                match w.lookup path with
                | none => .ok { state := st, world := w }
                | some src => do
                    let target := (w.lookup col.path).getD (stdDb [])
                    let rows2 ← import_from_db target src (.bool keep_user_data)
                    let w2 := setTracksAt w col.path rows2
                    let u := update_collection st w2
                    .ok { state := u.1
                          world := w2
                          events := u.2.1
                          signals := u.2.2 }
      | some .url =>
          match env.download path with
          | .error ex =>
              .ok { state := st
                    world := w
                    events := [.notification
                      ("Downloading collection from " ++ path ++ " failed: " ++ ex)
                      .error] }
          | .ok src =>
              match st.collection with
              | none => .ok { state := st, world := w }
              | some col =>
                  if !validate_db_schema (some src) then
                    .ok { state := st
                          world := w
                          events := [.notification
                            ("Cannot import from invalid collection: " ++ path)
                            .error] }
                  else do
                    let target := (w.lookup col.path).getD (stdDb [])
                    let rows2 ← import_from_db target src (.bool keep_user_data)
                    let w2 := setTracksAt w col.path rows2
                    let u := update_collection st w2
                    .ok { state := u.1
                          world := w2
                          events := u.2.1
                          signals := u.2.2 }
      | none =>
          .ok { state := st
                world := w
                events := [.notification
                  ("Import source " ++ path ++ " is neither file path nor url")
                  .error] }

/-- One iteration of `handle_client_msg_loop` (lines 464-470): a handler
exception is caught and logged; in the embedded handlers the only raise
point is before any store write or enqueue, so state and world are
unchanged and no event was enqueued. -/
def dispatchMsg (env : Env) (st : SessionState) (w : World) (m : MsgClient) :
    HandlerResult :=
  match handle_client_msg env st w m with
  | .ok r => r
  | .error _ => { state := st, world := w }

/-- The dispatch loop over a command sequence: final state, final world and
the concatenated enqueued events. -/
def processMsgs (env : Env) :
    SessionState → World → List MsgClient → SessionState × World × List MsgServer
  | st, w, [] => (st, w, [])
  | st, w, m :: rest =>
      let r := dispatchMsg env st w m
      let q := processMsgs env r.state r.world rest
      (q.1, q.2.1, r.events ++ q.2.2)

/-- The body of `handle_state_changes_loop` (lines 422-428) once the signal
has fired: clear the signal, sleep the 100 ms quiet period — the loop body
enqueues no event at all. -/
def handle_state_changes_body : List MsgServer := []

/-- Number of collection-info events in an event list. -/
def countCollectionInfo (evs : List MsgServer) : Nat :=
  (evs.filter (fun e =>
    match e with
    | .collectionInfo _ _ _ _ => true
    | _ => false)).length

/-- The events produced by the search jobs a dispatcher step installed,
each job run against a provider stream with an optional cancellation
point. -/
def taskEvents (stream : ProviderStream) (cancelAfter : Option Nat)
    (acts : List TaskAction) : List MsgServer :=
  acts.foldr
    (fun a acc =>
      match a with
      | .install job => search_fuzzy stream job.query_id job.limit cancelAfter ++ acc
      | _ => acc) []

/-! ## Concrete fixtures for the closed theorems -/

def demoTrack2 : Track :=
  { yt_id := "yt1", title := "Rated", artists := ["B"], rating := some 5 }

def demoTrack3 : Track :=
  { yt_id := "yt2", title := "Unrated", artists := [] }

def demoEnv : Env :=
  { home := "/home/u"
    fsDirs := [("/data", ["alpha.db", "beta.db", "notes.txt"])]
    download := fun _ => .error "connection refused" }

def demoJob : SearchJob := ⟨.fuzzy, "old", 9, 10⟩

def c4State : SessionState := { collection := some ⟨"/c", 0⟩ }

def c4World : World := [("/c", stdDb [])]

theorem countCollectionInfo_append (a b : List MsgServer) :
    countCollectionInfo (a ++ b) = countCollectionInfo a + countCollectionInfo b := by
  simp [countCollectionInfo, List.filter_append]

/-- The effect of one add-track command with a selected collection: the
echo event with the caller's track, then exactly one collection-info event
whose size is re-queried from the just-mutated store. -/
theorem addTrack_step (env : Env) (st : SessionState) (w : World) (t : Track)
    (ow : Bool) (col : Collection) (hc : st.collection = some col) :
    (dispatchMsg env st w (.addTrack t ow)).events
        = [MsgServer.trackUpdate t,
           MsgServer.collectionInfo none
             (some ⟨col.path, (insert_track (tracksAt w col.path) t (!ow)).length⟩)
             none none]
      ∧ (dispatchMsg env st w (.addTrack t ow)).state.collection
          = some ⟨col.path, (insert_track (tracksAt w col.path) t (!ow)).length⟩
      ∧ (dispatchMsg env st w (.addTrack t ow)).world
          = setTracksAt w col.path (insert_track (tracksAt w col.path) t (!ow)) := by
  have ht : tracksAt (setTracksAt w col.path (insert_track (tracksAt w col.path) t (!ow)))
      col.path = insert_track (tracksAt w col.path) t (!ow) := tracksAt_setTracksAt _ _ _
  have hu : ∀ w2 : World, update_collection st w2
      = ({ st with collection := some ⟨col.path, count_rows (tracksAt w2 col.path) []⟩ },
         [MsgServer.collectionInfo none
            (some ⟨col.path, count_rows (tracksAt w2 col.path) []⟩) none none],
         1) := by
    intro w2
    rw [update_collection.eq_def, hc]
  have hd : dispatchMsg env st w (.addTrack t ow)
      = { state := (update_collection st
            (setTracksAt w col.path (insert_track (tracksAt w col.path) t (!ow)))).1
          world := setTracksAt w col.path (insert_track (tracksAt w col.path) t (!ow))
          events := [MsgServer.trackUpdate t]
            ++ (update_collection st
              (setTracksAt w col.path (insert_track (tracksAt w col.path) t (!ow)))).2.1
          signals := (update_collection st
            (setTracksAt w col.path (insert_track (tracksAt w col.path) t (!ow)))).2.2 } := by
    rw [dispatchMsg.eq_def, handle_client_msg.eq_def, hc]
  refine ⟨?_, ?_, ?_⟩
  · rw [hd, hu, ht, count_rows_nil]; rfl
  · rw [hd, hu, ht, count_rows_nil]
  · rw [hd]

/-- C4 (amended): each mutation command itself enqueues one collection-info
event via `update_collection`, carrying the count re-queried right after
that mutation, so `N` add-track mutations produce `N` collection-info
events (not one); the debounce loop body (`handle_state_changes_loop`)
enqueues nothing at all. -/
theorem C4_mutation_events (env : Env) (ow : Bool) (ts : List Track)
    (st : SessionState) (w : World) (col : Collection)
    (hc : st.collection = some col) :
    countCollectionInfo
        (processMsgs env st w (ts.map (fun t => MsgClient.addTrack t ow))).2.2
      = ts.length
    ∧ handle_state_changes_body = ([] : List MsgServer) := by
  refine ⟨?_, rfl⟩
  induction ts generalizing st w col with
  | nil => rfl
  | cons t rest ih =>
      have hstep := addTrack_step env st w t ow col hc
      simp only [List.map_cons, processMsgs]
      rw [countCollectionInfo_append, hstep.1]
      have hrest := ih (dispatchMsg env st w (.addTrack t ow)).state
        (dispatchMsg env st w (.addTrack t ow)).world _ hstep.2.1
      rw [hrest]
      simp [countCollectionInfo]
      omega

/-- Witness for C4 (amended): two add-track mutations on an empty selected
collection yield two collection-info events. -/
theorem C4_mutation_events_witness :
    c4State.collection = some ⟨"/c", 0⟩
    ∧ (countCollectionInfo
          (processMsgs demoEnv c4State c4World
            (([demoTrack, demoTrack2] : List Track).map
              (fun t => MsgClient.addTrack t false))).2.2
        = ([demoTrack, demoTrack2] : List Track).length
      ∧ handle_state_changes_body = ([] : List MsgServer)) :=
  ⟨rfl, C4_mutation_events demoEnv false [demoTrack, demoTrack2] c4State c4World ⟨"/c", 0⟩ rfl⟩

/-- C4 counterexample: two mutation signals produce two collection-info
events, not exactly one — the per-mutation `update_collection` enqueues
each, and the debounce loop enqueues nothing. -/
theorem C4_counterexample :
    countCollectionInfo
        (processMsgs demoEnv c4State c4World
          [MsgClient.addTrack demoTrack false, MsgClient.addTrack demoTrack2 false]).2.2
      = 2 ∧ ¬ (2 : Nat) = 1 := by
  decide

/-- C8: an add-track command with `overwrite_existing = false` whose
`yt_id` already exists leaves the store rows unchanged (the existing row
keeps every field value) and still enqueues the track-update echo event
carrying the caller-provided track (followed by the collection-info event
of `update_collection`). -/
theorem C8_add_track_ignore_echo (env : Env) (st : SessionState) (w : World)
    (t : Track) (col : Collection) (hc : st.collection = some col)
    (hex : (tracksAt w col.path).any (fun r => r.yt_id == t.yt_id) = true) :
    tracksAt (dispatchMsg env st w (.addTrack t false)).world col.path
        = tracksAt w col.path
      ∧ (dispatchMsg env st w (.addTrack t false)).events
          = [MsgServer.trackUpdate t,
             MsgServer.collectionInfo none
               (some ⟨col.path, (tracksAt w col.path).length⟩) none none] := by
  have hins : insert_track (tracksAt w col.path) t (!false) = tracksAt w col.path := by
    simp [insert_track, hex]
  have hstep := addTrack_step env st w t false col hc
  constructor
  · rw [hstep.2.2, hins, tracksAt_setTracksAt]
  · rw [hstep.1, hins]

def c8Track : Track := { yt_id := "yt1", title := "Changed", artists := [] }

def c8World : World := [("/c", stdDb [demoTrack2])]

def c8State : SessionState := { collection := some ⟨"/c", 1⟩ }

/-- Witness for C8: adding a track whose `yt_id` collides with the stored
`demoTrack2` but whose other fields differ. -/
theorem C8_add_track_ignore_echo_witness :
    (c8State.collection = some ⟨"/c", 1⟩
      ∧ (tracksAt c8World "/c").any (fun r => r.yt_id == c8Track.yt_id) = true)
    ∧ (tracksAt (dispatchMsg demoEnv c8State c8World (.addTrack c8Track false)).world "/c"
          = tracksAt c8World "/c"
      ∧ (dispatchMsg demoEnv c8State c8World (.addTrack c8Track false)).events
          = [MsgServer.trackUpdate c8Track,
             MsgServer.collectionInfo none
               (some ⟨"/c", (tracksAt c8World "/c").length⟩) none none]) :=
  ⟨⟨rfl, by decide⟩,
   C8_add_track_ignore_echo demoEnv c8State c8World c8Track ⟨"/c", 1⟩ rfl (by decide)⟩

/-- C9: a set-collection command whose path fails schema validation clears
the session's selected collection to `None` (whatever was selected before)
and enqueues one collection-info event with the request id, the error
message, and the path completions for the attempted path; the state-change
signal is set. -/
theorem C9_invalid_set_collection (env : Env) (st : SessionState) (w : World)
    (id : Int) (path : String)
    (hv : validate_db_schema (World.lookup w path) = false) :
    (dispatchMsg env st w (.setCollection id path)).state.collection = none
      ∧ (dispatchMsg env st w (.setCollection id path)).events
          = [MsgServer.collectionInfo (some id) none (some "not a valid collection")
              (some (get_path_completions env path))]
      ∧ (dispatchMsg env st w (.setCollection id path)).signals = 1 := by
  have hd : dispatchMsg env st w (.setCollection id path)
      = { state := { st with collection := none }
          world := w
          events := [MsgServer.collectionInfo (some id) none
            (some "not a valid collection") (some (get_path_completions env path))]
          signals := 1 } := by
    rw [dispatchMsg.eq_def, handle_client_msg.eq_def]
    simp only [hv, Bool.false_eq_true, if_false]
  refine ⟨?_, ?_, ?_⟩ <;> rw [hd]

/-- Witness for C9: `/data/al` is not a collection file; the previously
selected collection of `c4State` is cleared and the completions list for
`/data/al` is attached. -/
theorem C9_invalid_set_collection_witness :
    validate_db_schema (World.lookup c4World "/data/al") = false
    ∧ ((dispatchMsg demoEnv c4State c4World (.setCollection 5 "/data/al")).state.collection
          = none
      ∧ (dispatchMsg demoEnv c4State c4World (.setCollection 5 "/data/al")).events
          = [MsgServer.collectionInfo (some 5) none (some "not a valid collection")
              (some (get_path_completions demoEnv "/data/al"))]
      ∧ (dispatchMsg demoEnv c4State c4World (.setCollection 5 "/data/al")).signals = 1) :=
  ⟨by decide, C9_invalid_set_collection demoEnv c4State c4World 5 "/data/al" (by decide)⟩

/-- C10: a search command with an empty query cancels any running search
job (and only that) and installs no new job, so its handler enqueues no
event, leaves the session state unchanged, and no job tagged with the new
`query_id` ever runs — the events of the installed jobs of this dispatch
are empty for every provider stream. -/
theorem C10_empty_query_search (env : Env) (st : SessionState) (w : World)
    (query_id : Int) (limit : Nat) (kind : SearchKind) :
    (dispatchMsg env st w (.search "" query_id limit kind)).taskActions
        = (if st.search_task.isSome then [TaskAction.cancel] else [])
      ∧ (∀ job : SearchJob, TaskAction.install job
          ∉ (dispatchMsg env st w (.search "" query_id limit kind)).taskActions)
      ∧ (dispatchMsg env st w (.search "" query_id limit kind)).events = []
      ∧ (dispatchMsg env st w (.search "" query_id limit kind)).state = st
      ∧ ∀ (s : ProviderStream) (c : Option Nat),
          taskEvents s c (dispatchMsg env st w (.search "" query_id limit kind)).taskActions
            = [] := by
  have hd : dispatchMsg env st w (.search "" query_id limit kind)
      = { state := st
          world := w
          taskActions := if st.search_task.isSome then [TaskAction.cancel] else [] } := by
    rw [dispatchMsg.eq_def, handle_client_msg.eq_def]
    simp
  refine ⟨?_, ?_, ?_, ?_, ?_⟩
  · rw [hd]
  · intro job
    rw [hd]
    cases st.search_task.isSome <;> simp
  · rw [hd]
  · rw [hd]
  · intro s c
    rw [hd]
    cases st.search_task.isSome <;> simp [taskEvents]

/-- C2 counterexample: on a second search with a job installed, the
dispatcher's action sequence is `[cancel, install]` — it contains no
await-termination step before installing the new job, contrary to the
claim's "requests cancellation of, and awaits termination of, the existing
job before installing the new one". -/
theorem C2_counterexample :
    TaskAction.awaitTermination ∉
        (dispatchMsg demoEnv { collection := none, search_task := some demoJob }
          [] (MsgClient.search "q" 2 10 SearchKind.fuzzy)).taskActions
      ∧ TaskAction.install ⟨SearchKind.fuzzy, "q", 2, 10⟩ ∈
        (dispatchMsg demoEnv { collection := none, search_task := some demoJob }
          [] (MsgClient.search "q" 2 10 SearchKind.fuzzy)).taskActions := by
  decide

/-- C2 (amended): starting a second search with a non-empty query while a
job is installed requests cancellation of the old job and then installs the
new one, without awaiting the old job's termination; the cancelled job
enqueues no further result event past its cancellation point (at most `k`
results when cancellation is delivered at suspension point `k`) and still
enqueues its completion event exactly once. -/
theorem C2_supersede_cancel (env : Env) (st : SessionState) (w : World) (q : String)
    (query_id : Int) (limit : Nat) (kind : SearchKind) (job : SearchJob)
    (s : ProviderStream) (k : Nat)
    (hq : q ≠ "") (hj : st.search_task = some job) :
    (dispatchMsg env st w (.search q query_id limit kind)).taskActions
        = [TaskAction.cancel, TaskAction.install ⟨kind, q, query_id, limit⟩]
      ∧ countResults job.query_id (search_fuzzy s job.query_id job.limit (some k)) ≤ k
      ∧ countCompletes job.query_id (search_fuzzy s job.query_id job.limit (some k)) = 1 := by
  refine ⟨?_, ?_, ?_⟩
  · have hd : dispatchMsg env st w (.search q query_id limit kind)
        = { state := { st with search_task := some ⟨kind, q, query_id, limit⟩ }
            world := w
            taskActions := [TaskAction.cancel, TaskAction.install ⟨kind, q, query_id, limit⟩] } := by
      rw [dispatchMsg.eq_def, handle_client_msg.eq_def, hj]
      simp [hq]
    rw [hd]
  · have hshape := searchFuzzyLoop_eq job.query_id job.limit s 0 (some k)
    show countResults job.query_id (searchFuzzyLoop job.query_id job.limit s 0 (some k)) ≤ k
    rw [hshape, countResults_append, countResults_append, countResults_map_self,
      countResults_faultEvents]
    have hone : countResults job.query_id [MsgServer.searchComplete job.query_id] = 0 := rfl
    rw [hone]
    have := searchTaken_length_le_cancel job.limit s 0 k
    omega
  · have hshape := searchFuzzyLoop_eq job.query_id job.limit s 0 (some k)
    show countCompletes job.query_id (searchFuzzyLoop job.query_id job.limit s 0 (some k)) = 1
    rw [hshape, countCompletes_append, countCompletes_append, countCompletes_map_results,
      countCompletes_faultEvents]
    simp [countCompletes]

/-- Witness for C2 (amended): supersession with a one-track stream and
cancellation delivered after one suspension point. -/
theorem C2_supersede_cancel_witness :
    ("q" ≠ ""
      ∧ ({ collection := none, search_task := some demoJob } : SessionState).search_task
          = some demoJob)
    ∧ ((dispatchMsg demoEnv { collection := none, search_task := some demoJob }
          [] (MsgClient.search "q" 2 10 SearchKind.fuzzy)).taskActions
        = [TaskAction.cancel, TaskAction.install ⟨SearchKind.fuzzy, "q", 2, 10⟩]
      ∧ countResults demoJob.query_id
          (search_fuzzy (.yield demoTrack .nil) demoJob.query_id demoJob.limit (some 1)) ≤ 1
      ∧ countCompletes demoJob.query_id
          (search_fuzzy (.yield demoTrack .nil) demoJob.query_id demoJob.limit (some 1)) = 1) :=
  ⟨⟨by decide, rfl⟩,
   C2_supersede_cancel demoEnv { collection := none, search_task := some demoJob }
     [] "q" 2 10 SearchKind.fuzzy demoJob (.yield demoTrack .nil) 1 (by decide) rfl⟩

theorem pageClause_of_countClause (field : String) (item : FilterModelItem)
    (t : Track) (b : Bool) (h : countClause field item t = some b) :
    pageClause field item t = some b := by
  unfold countClause at h
  unfold pageClause
  by_cases h1 : item.filterType = "text" ∧ item.type = "contains"
  · rw [if_pos h1] at h ⊢
    exact h
  · rw [if_neg h1] at h ⊢
    by_cases h2 : item.type = "equals"
    · rw [if_pos h2] at h ⊢
      exact h
    · rw [if_neg h2] at h
      exact absurd h (by simp)

/-- Every row matching `get_rows_2`'s WHERE clauses also matches
`count_rows`'s (which keep only the `contains` and `equals` conditions). -/
theorem matchesCount_of_matchesPage (filterModel : FilterModel) (t : Track)
    (h : matchesPage filterModel t = true) : matchesCount filterModel t = true := by
  unfold matchesPage at h
  unfold matchesCount
  rw [List.all_eq_true] at h ⊢
  intro e he
  have hp := h e he
  cases hee : e.2 with
  | combined c => simp only [hee]
  | single item =>
      simp only [hee] at hp ⊢
      cases hcc : countClause e.1 item t with
      | none => simp [hcc]
      | some b =>
          have hpc := pageClause_of_countClause e.1 item t b hcc
          rw [hpc] at hp
          simp only [hcc]
          exact hp

theorem length_filter_mono {α : Type} (p q : α → Bool)
    (h : ∀ x, p x = true → q x = true) (l : List α) :
    (l.filter p).length ≤ (l.filter q).length := by
  induction l with
  | nil => simp
  | cons x xs ih =>
      rw [List.filter_cons, List.filter_cons]
      cases hx : p x with
      | true =>
          rw [h x hx]
          simp only [if_true, List.length_cons]
          omega
      | false =>
          simp only [Bool.false_eq_true, if_false]
          cases hq : q x with
          | true => simp only [if_true, List.length_cons]; omega
          | false => simp only [Bool.false_eq_true, if_false]; omega

/-- C7 (amended): a get-rows command with a selected collection enqueues
exactly one rows response carrying the request id, the `[startRow,endRow)`
window of the sorted rows matching `get_rows_2`'s filter (plain field
equality, substring and null-check conditions AND-ed across fields;
combined AND/OR filter items are ignored), and a total computed by
`count_rows` from only the equality and substring conditions — an
over-approximation of the rows matching the page's filter, not the count
under the same filter. -/
theorem C7_get_rows_response (env : Env) (st : SessionState) (w : World)
    (id : Int) (startRow endRow : Nat) (sortModel : List SortModelItem)
    (filterModel : FilterModel) (col : Collection)
    (hc : st.collection = some col) :
    (dispatchMsg env st w (.getRows id startRow endRow sortModel filterModel)).events
        = [MsgServer.rows id
            (get_rows_2 (tracksAt w col.path) startRow endRow sortModel filterModel)
            (some (count_rows (tracksAt w col.path) filterModel))]
      ∧ get_rows_2 (tracksAt w col.path) startRow endRow sortModel filterModel
          = ((sortTracks sortModel
              ((tracksAt w col.path).filter (matchesPage filterModel))).drop
                startRow).take (endRow - startRow)
      ∧ ((tracksAt w col.path).filter (matchesPage filterModel)).length
          ≤ count_rows (tracksAt w col.path) filterModel := by
  have hd : dispatchMsg env st w (.getRows id startRow endRow sortModel filterModel)
      = { state := st
          world := w
          events := [MsgServer.rows id
            (get_rows_2 (tracksAt w col.path) startRow endRow sortModel filterModel)
            (some (count_rows (tracksAt w col.path) filterModel))] } := by
    rw [dispatchMsg.eq_def, handle_client_msg.eq_def, hc]
  refine ⟨by rw [hd], rfl, ?_⟩
  exact length_filter_mono _ _ (fun t => matchesCount_of_matchesPage filterModel t) _

def c7Rows : List Track := [demoTrack2, demoTrack3]

def c7World : World := [("/c", stdDb c7Rows)]

def c7State : SessionState := { collection := some ⟨"/c", 2⟩ }

def c7Filter : FilterModel :=
  [("rating", .single { filterType := "number", type := "notBlank" })]

/-- Witness for C7 (amended): a not-blank rating filter over a two-row
store. -/
theorem C7_get_rows_response_witness :
    c7State.collection = some ⟨"/c", 2⟩
    ∧ ((dispatchMsg demoEnv c7State c7World (.getRows 3 0 10 [] c7Filter)).events
          = [MsgServer.rows 3 (get_rows_2 (tracksAt c7World "/c") 0 10 [] c7Filter)
              (some (count_rows (tracksAt c7World "/c") c7Filter))]
      ∧ get_rows_2 (tracksAt c7World "/c") 0 10 [] c7Filter
          = ((sortTracks [] ((tracksAt c7World "/c").filter (matchesPage c7Filter))).drop
              0).take (10 - 0)
      ∧ ((tracksAt c7World "/c").filter (matchesPage c7Filter)).length
          ≤ count_rows (tracksAt c7World "/c") c7Filter) :=
  ⟨rfl, C7_get_rows_response demoEnv c7State c7World 3 0 10 [] c7Filter ⟨"/c", 2⟩ rfl⟩

/-- C7 counterexample: under the not-blank rating filter exactly one of the
two stored rows matches, and the page indeed holds just that row, but the
response's total is 2 — `count_rows` has no branch for the null-check
conditions, so the total is not the count of rows matching the same
filter. -/
theorem C7_counterexample :
    (dispatchMsg demoEnv c7State c7World (.getRows 1 0 10 [] c7Filter)).events
        = [MsgServer.rows 1 [demoTrack2] (some 2)]
      ∧ (c7Rows.filter (matchesPage c7Filter)).length = 1
      ∧ ¬ (2 : Nat) = 1 := by
  decide

/-- C6 (the bug): with a selected collection and a schema-valid local
source, the import-from handler raises
`TypeError: bool object is not iterable` for either value of
`keep_user_data` — the call site passes the boolean where `import_from_db`
expects its `cols` column list — so no merge happens, the store is
untouched and no event is enqueued (the dispatch loop swallows the
exception); the flag never reaches any user-field handling. -/
theorem C6_keep_user_data_inoperative (env : Env) (st : SessionState) (w : World)
    (path : String) (b : Bool) (col : Collection) (src : SqliteDb)
    (hc : st.collection = some col)
    (hfile : is_file_or_url path = some SrcKind.file)
    (hsrc : World.lookup w path = some src)
    (hvalid : validate_db_schema (some src) = true) :
    handle_client_msg env st w (.importFrom path b)
        = .error (.typeError "bool object is not iterable")
      ∧ (dispatchMsg env st w (.importFrom path b)).world = w
      ∧ (dispatchMsg env st w (.importFrom path b)).events = [] := by
  have hmain : handle_client_msg env st w (.importFrom path b)
      = .error (.typeError "bool object is not iterable") := by
    rw [handle_client_msg.eq_def]
    simp only [hfile, hc, hsrc, hvalid]
    rfl
  refine ⟨hmain, ?_, ?_⟩ <;> rw [dispatchMsg.eq_def, hmain]

def c6World : World := [("/c", stdDb []), ("/src.db", stdDb [demoTrack2])]

/-- Witness for C6: importing from the valid source `/src.db` with
`keep_user_data = true`. -/
theorem C6_keep_user_data_inoperative_witness :
    (c4State.collection = some ⟨"/c", 0⟩
      ∧ is_file_or_url "/src.db" = some SrcKind.file
      ∧ World.lookup c6World "/src.db" = some (stdDb [demoTrack2])
      ∧ validate_db_schema (some (stdDb [demoTrack2])) = true)
    ∧ (handle_client_msg demoEnv c4State c6World (.importFrom "/src.db" true)
          = .error (.typeError "bool object is not iterable")
      ∧ (dispatchMsg demoEnv c4State c6World (.importFrom "/src.db" true)).world = c6World
      ∧ (dispatchMsg demoEnv c4State c6World (.importFrom "/src.db" true)).events = []) :=
  ⟨⟨rfl, by decide, by decide, by decide⟩,
   C6_keep_user_data_inoperative demoEnv c4State c6World "/src.db" true ⟨"/c", 0⟩
     (stdDb [demoTrack2]) rfl (by decide) (by decide) (by decide)⟩

end Stereo

